import Mathlib

/-!
Shallow embedding of the librescoot ecu-service core (Go) in Lean 4.

Each definition mirrors one function of the Go source:
  * `CanFrame`, big-endian helpers        — github.com/brutella/can frame + encoding/binary
  * fault taxonomy and `mapBoschFault`    — src/ecu/faults.go
  * `BoschState`, `handleStatus2Frame`,
    `getFaultCode`, `getActiveFaults`,
    `setKersEnabled`, `sendStatusRequest` — src/ecu/bosch.go
  * `SpeedBuffer`, `movingAverage`,
    `sampleSpeed`, `updatePower`          — src/ecu/ecu.go
  * `getActiveTemperatureState`           — src/battery.go
  * fault recovery timers                 — src/engine_app.go
  * KERS supervisor state machine         — src/unnamed/part_004 (kers.go)

Time is modelled as a Nat (milliseconds for timers, nanoseconds for the
power integrator); Go float64 arithmetic on small integral data is
modelled exactly over ℚ; machine integers are Nat/Int with `% 2^w`
applied where the Go code can overflow (the uint16 running sum of the
speed buffer).  CAN-bus publishes and their possible errors are passed
in explicitly: a command takes the outcome of each publish attempt as an
`Option Nat` (none = success, some e = error e) and returns the list of
frames it handed to the bus together with its returned error.
-/

namespace ECUService

/-- A CAN frame as in github.com/brutella/can: 32-bit ID, a length byte
and a fixed 8-byte payload. -/
structure CanFrame where
  id : Nat
  length : Nat
  data : List Nat
  deriving DecidableEq

/-- Mirrors Go frame construction: `Length = len(data)` and the payload
copied into a zero-initialised `[8]byte`. -/
def mkCanFrame (id : Nat) (payload : List Nat) : CanFrame :=
  ⟨id, payload.length, (payload ++ List.replicate 8 0).take 8⟩

/-- binary.BigEndian.Uint16 over two payload bytes. -/
def u16be (a b : Nat) : Nat := a % 256 * 256 + b % 256

/-- binary.BigEndian.Uint32 over four payload bytes. -/
def u32be (a b c d : Nat) : Nat :=
  a % 256 * 16777216 + b % 256 * 65536 + c % 256 * 256 + d % 256

/-- binary.BigEndian.PutUint16: the two big-endian bytes of a uint16. -/
def putU16BE (v : Nat) : List Nat := [v % 65536 / 256, v % 256]

/-- Sign-extension of a payload byte, as the Go conversion int8(b). -/
def toInt8 (n : Nat) : Int :=
  if n % 256 < 128 then (n % 256 : Int) else (n % 256 : Int) - 256

/-- Helper boolToByte of src/ecu/ecu.go. -/
def boolToByte (b : Bool) : Nat := if b then 1 else 0

/-- Unified fault taxonomy of src/ecu/faults.go (`ECUFault` constants). -/
inductive ECUFault where
  | FaultNone
  | FaultBatteryOverVoltage
  | FaultBatteryUnderVoltage
  | FaultMotorShortCircuit
  | FaultMotorStalled
  | FaultHallSensorAbnormal
  | FaultMOSFETCheckError
  | FaultMotorOpenCircuit
  | FaultReserved8
  | FaultReserved9
  | FaultPowerOnSelfCheckError
  | FaultOverTemperature
  | FaultThrottleAbnormal
  | FaultMotorTemperatureProtection
  | FaultThrottleActiveAtPowerUp
  | FaultReserved15
  | FaultInternal15vAbnormal
  deriving DecidableEq

open ECUFault

/-- Association lookup, mirroring a Go `map[uint32]ECUFault` read. -/
def lookupFault : List (Nat × ECUFault) → Nat → Option ECUFault
  | [], _ => none
  | (k, v) :: rest, code => if code = k then some v else lookupFault rest code

/-- The boschFaultMap table of src/ecu/faults.go. -/
def boschFaultMap : List (Nat × ECUFault) :=
  [(0x01, FaultBatteryOverVoltage),
   (0x02, FaultBatteryUnderVoltage),
   (0x03, FaultMotorShortCircuit),
   (0x04, FaultMotorStalled),
   (0x05, FaultHallSensorAbnormal),
   (0x06, FaultMOSFETCheckError),
   (0x07, FaultMotorOpenCircuit),
   (0x0A, FaultPowerOnSelfCheckError),
   (0x0B, FaultOverTemperature),
   (0x0C, FaultThrottleAbnormal),
   (0x0D, FaultMotorTemperatureProtection),
   (0x0E, FaultThrottleActiveAtPowerUp),
   (0x10, FaultInternal15vAbnormal)]

/-- MapBoschFault of src/ecu/faults.go: table lookup, FaultNone when absent. -/
def mapBoschFault (code : Nat) : ECUFault :=
  (lookupFault boschFaultMap code).getD FaultNone

/-- Bosch ECU CAN IDs and KERS constants of src/ecu/bosch.go. -/
def BoschStatus2FrameID : Nat := 0x7E1
def BoschEBSSetFrameID : Nat := 0x4E2
def BoschControlMessageID : Nat := 0x4E0
def BoschStatusRequestFrameID : Nat := 0x4EF
def KersVoltage : Nat := 56000
def KersCurrent : Nat := 10000
def BoschGearModeEnable : Bool := true
def BoschBoostModeEnable : Bool := false

/-- The mutable state of BoschECU (src/ecu/bosch.go). -/
structure BoschState where
  speed : Nat
  rawSpeed : Nat
  rpm : Nat
  voltage : Int
  current : Int
  temperature : Int
  odometer : Nat
  faultCode : Nat
  kersEnabled : Bool
  throttleOn : Bool
  deriving DecidableEq

/-- Zero value of BoschECU, as produced by NewBoschECU. -/
def boschInit : BoschState :=
  ⟨0, 0, 0, 0, 0, 0, 0, 0, false, false⟩

/-- handleStatus2Frame of src/ecu/bosch.go: frames shorter than 6 bytes
are ignored; otherwise byte 0 is the temperature and bytes 2..6 the
big-endian fault-code word, stored as-is. -/
def handleStatus2Frame (b : BoschState) (frame : CanFrame) : BoschState :=
  if frame.length < 6 then b
  else
    { b with
      temperature := toInt8 (frame.data.getD 0 0)
      faultCode := u32be (frame.data.getD 2 0) (frame.data.getD 3 0)
        (frame.data.getD 4 0) (frame.data.getD 5 0) }

/-- GetFaultCode of src/ecu/bosch.go. -/
def getFaultCode (b : BoschState) : Nat := b.faultCode

/-- Active-fault computation of GetActiveFaults (src/ecu/bosch.go),
as a function of the stored fault code; the resulting map has at most
one key so a list represents it. -/
def boschActiveFaults (faultCode : Nat) : List ECUFault :=
  if faultCode ≠ 0 then
    let fault := mapBoschFault faultCode
    if fault ≠ FaultNone then [fault] else []
  else []

/-- GetActiveFaults of src/ecu/bosch.go. -/
def getActiveFaults (b : BoschState) : List ECUFault :=
  boschActiveFaults b.faultCode

/-- The EBSSet frame sent by SetKersEnabled: voltage and current
setpoints encoded big-endian (src/ecu/bosch.go lines 152-163). -/
def boschEBSSetFrame : CanFrame :=
  mkCanFrame BoschEBSSetFrameID (putU16BE KersVoltage ++ putU16BE KersCurrent)

/-- The control byte of the Bosch Control frame:
gear_bit | boost<<1 | kers<<2 (src/ecu/bosch.go lines 174-178). -/
def boschControlByte (enabled : Bool) : Nat :=
  boolToByte BoschGearModeEnable |||
    (boolToByte BoschBoostModeEnable <<< 1) |||
    (boolToByte enabled <<< 2)

/-- The Control frame sent by SetKersEnabled. -/
def boschControlFrame (enabled : Bool) : CanFrame :=
  mkCanFrame BoschControlMessageID [boschControlByte enabled]

/-- SetKersEnabled of src/ecu/bosch.go.  `ebsErr` and `ctrlErr` are the
outcomes the CAN bus would report for the EBSSet and Control publishes.
Returns (frames handed to the bus, returned error, new state); on a
publish error the function returns early, leaving `kersEnabled`
unchanged. -/
def setKersEnabled (b : BoschState) (enabled : Bool)
    (ebsErr ctrlErr : Option Nat) :
    List CanFrame × Option Nat × BoschState :=
  if enabled then
    match ebsErr with
    | some e => ([boschEBSSetFrame], some e, b)
    | none =>
      match ctrlErr with
      | some e => ([boschEBSSetFrame, boschControlFrame enabled], some e, b)
      | none => ([boschEBSSetFrame, boschControlFrame enabled], none,
          { b with kersEnabled := enabled })
  else
    match ctrlErr with
    | some e => ([boschControlFrame enabled], some e, b)
    | none => ([boschControlFrame enabled], none,
        { b with kersEnabled := enabled })

/-- The status-request frame of SendStatusRequest (src/ecu/bosch.go
lines 204-208): ID 0x4EF, Length 1, single byte 0x01
(report_all_ecu_settings = 1). -/
def boschStatusRequestFrame : CanFrame :=
  mkCanFrame BoschStatusRequestFrameID [0x01]

/-- SendStatusRequest of src/ecu/bosch.go: publishes the status-request
frame and returns the publish result of the bus. -/
def sendStatusRequest (pubErr : Option Nat) : List CanFrame × Option Nat :=
  ([boschStatusRequestFrame], pubErr)

/-- SpeedBuffer of src/ecu/ecu.go: a window-3 ring buffer with a uint16
running sum. All fields are Go machine integers; the wrap of the uint16
`sum` is applied in `movingAverage`. -/
structure SpeedBuffer where
  data : List Nat
  head : Nat
  count : Nat
  sum : Nat
  deriving DecidableEq

/-- SpeedBuffer.Reset of src/ecu/ecu.go (also the zero value of the
struct): count = head = sum = 0, all three slots zeroed. -/
def speedBufferReset : SpeedBuffer := ⟨[0, 0, 0], 0, 0, 0⟩

/-- SpeedBuffer.MovingAverage of src/ecu/ecu.go.  `buf.sum` is a uint16
in Go, so `(sum - lastData) + speed` is computed modulo 2^16 (written
with `+ 65536` and `% 65536` so the Nat subtraction cannot truncate).
The returned average is float64 `sum / count`; for the integral values
involved this is exact, so it is modelled over ℚ. -/
def movingAverage (buf : SpeedBuffer) (speed : Nat) : SpeedBuffer × ℚ :=
  let sp := speed % 65536
  let lastData := if 3 ≤ buf.count then buf.data.getD (buf.head % 3) 0 else 0
  let count := if 3 ≤ buf.count then 3 else buf.count + 1
  let data := buf.data.set (buf.head % 3) sp
  let sum := (buf.sum % 65536 + 65536 - lastData % 65536 + sp) % 65536
  let average : ℚ := (sum : ℚ) / (count : ℚ)
  (⟨data, (buf.head + 1) % 3, count, sum⟩, average)

/-- The buffer-level behaviour of calculateSpeed (src/ecu/ecu.go lines
109-117): a zero raw speed resets the buffer and yields 0, otherwise
the sample goes through the moving average. -/
def sampleSpeed (buf : SpeedBuffer) (raw : Nat) : SpeedBuffer × ℚ :=
  if raw = 0 then (speedBufferReset, 0) else movingAverage buf raw

/-- Floor of a nonnegative rational as a Nat; the Go uint64(f) conversion
truncates toward zero, which on nonnegative values is the floor. -/
def ratFloorNat (q : ℚ) : Nat := (Int.fdiv q.num (q.den : Int)).toNat

/-- The energy-integration state of BaseECU (src/ecu/ecu.go):
`lastPowerUpdate` is `none` for the zero time.Time, otherwise the
monotonic timestamp in nanoseconds. -/
structure PowerState where
  lastPowerUpdate : Option Nat
  energyConsumed : Nat
  energyRecovered : Nat
  lastVoltage : Int
  lastCurrent : Int
  deriving DecidableEq

/-- UpdatePower of src/ecu/ecu.go (lines 146-180), at monotonic time
`now` in nanoseconds.  On the first call it only records the timestamp;
afterwards it always sets `lastPowerUpdate := now`, computes
`powerMW = voltage*current/1000` (Go integer division truncating toward
zero), `energyMWh = powerMW * dt_hours` in float64 (exact here over ℚ),
and adds the truncation of the positive part to one of the two counters.
Note: the Go body contains no `dt > MaxPowerDeltaSeconds` guard. -/
def updatePower (s : PowerState) (now : Nat) (voltage current : Int) :
    PowerState :=
  let s := { s with lastVoltage := voltage, lastCurrent := current }
  match s.lastPowerUpdate with
  | none => { s with lastPowerUpdate := some now }
  | some last =>
    let dtHours : ℚ := ((now - last : Nat) : ℚ) / 3600000000000
    let powerMW : Int := Int.tdiv (voltage * current) 1000
    let energyMWh : ℚ := (powerMW : ℚ) * dtHours
    if 0 < energyMWh then
      { s with lastPowerUpdate := some now
               energyConsumed := s.energyConsumed + ratFloorNat energyMWh }
    else
      { s with lastPowerUpdate := some now
               energyRecovered := s.energyRecovered + ratFloorNat (-energyMWh) }

/-- A sequence of UpdatePower calls: each element is
(timestamp, voltage, current). -/
def runPowerUpdates (s : PowerState) : List (Nat × Int × Int) → PowerState
  | [] => s
  | u :: rest => runPowerUpdates (updatePower s u.1 u.2.1 u.2.2) rest

/-- BatteryTemperatureState of src/battery.go. -/
inductive BatteryTemperatureState where
  | unknown
  | cold
  | hot
  | ideal
  deriving DecidableEq

/-- BatteryState of src/battery.go: the {active, thermal} record of one pack. -/
structure BatteryState where
  active : Bool
  temperatureState : BatteryTemperatureState
  deriving DecidableEq

/-- GetActiveTemperatureState of src/battery.go on the two packs. -/
def getActiveTemperatureState (b0 b1 : BatteryState) :
    BatteryTemperatureState :=
  if b0.active && !b1.active then b0.temperatureState
  else if b1.active && !b0.active then b1.temperatureState
  else BatteryTemperatureState.unknown

/-- Fault recovery timing constants of src/engine_app.go, in ms. -/
def FaultUpdateDelay : Nat := 500
def FaultClearTimeout : Nat := 5000

/-- The fault-recovery timer state of EngineApp (src/engine_app.go):
each `time.Timer` is modelled by its absolute deadline, `none` when the
timer is stopped / nil. -/
structure FaultTimerState where
  hasFault : Bool
  updateTimer : Option Nat
  clearTimer : Option Nat
  deriving DecidableEq

/-- stopFaultRecoveryTimers of src/engine_app.go. -/
def stopFaultRecoveryTimers (s : FaultTimerState) : FaultTimerState :=
  { s with updateTimer := none, clearTimer := none }

/-- startFaultRecoveryTimers of src/engine_app.go: stop any existing
timers, then arm the update timer at now+500 ms and the clear timer at
now+5000 ms. -/
def startFaultRecoveryTimers (s : FaultTimerState) (now : Nat) :
    FaultTimerState :=
  let s := stopFaultRecoveryTimers s
  { s with updateTimer := some (now + FaultUpdateDelay)
           clearTimer := some (now + FaultClearTimeout) }

/-- refreshFaultUpdateTimer of src/engine_app.go: restart the update
timer (when it exists) without touching the clear timer. -/
def refreshFaultUpdateTimer (s : FaultTimerState) (now : Nat) :
    FaultTimerState :=
  match s.updateTimer with
  | some _ => { s with updateTimer := some (now + FaultUpdateDelay) }
  | none => s

/-- handleFaultState of src/engine_app.go (lines 322-339), at time
`now` with `has` = (the new active-fault set is nonempty). -/
def handleFaultState (s : FaultTimerState) (now : Nat) (has : Bool) :
    FaultTimerState :=
  let s' :=
    if has && !s.hasFault then startFaultRecoveryTimers s now
    else if !has && s.hasFault then stopFaultRecoveryTimers s
    else if has then refreshFaultUpdateTimer s now
    else s
  { s' with hasFault := has }

/-- A sequence of handleFaultState calls, each (timestamp, has-fault). -/
def runFaultUpdates (s : FaultTimerState) : List (Nat × Bool) → FaultTimerState
  | [] => s
  | u :: rest => runFaultUpdates (handleFaultState s u.1 u.2) rest

/-- VehicleState of the KERS supervisor (src/unnamed/part_004). -/
inductive VehicleState where
  | engineNotReady
  | engineReady
  deriving DecidableEq

/-- KersReasonOff of the KERS supervisor (src/unnamed/part_004). -/
inductive KersReasonOff where
  | offNone
  | offCold
  | offHot
  deriving DecidableEq

/-- KersEngineOnDelayS of src/unnamed/part_004 (1.5 s), in ms. -/
def KersEngineOnDelayMs : Nat := 1500

/-- The KERS supervisor state (src/unnamed/part_004).  The engine-on
timer is modelled by its absolute deadline in ms (`none` = stopped). -/
structure KERSState where
  temperatureState : BatteryTemperatureState
  kersReasonOff : KersReasonOff
  vehicleStopped : Bool
  vehicleState : VehicleState
  engineOnTimer : Option Nat
  deriving DecidableEq

/-- The tail of updateKers (src/unnamed/part_004) after kersReasonOff
has been assigned: when the vehicle is stopped and the vehicle state is
EngineReady, enableDisableKers(kersReasonOff == None) runs — recorded
as the output event (now, enable); otherwise no ECU command is made. -/
def updateKersApply (s : KERSState) (now : Nat) :
    KERSState × List (Nat × Bool) :=
  if s.vehicleStopped then
    match s.vehicleState with
    | VehicleState.engineReady =>
        (s, [(now, s.kersReasonOff = KersReasonOff.offNone)])
    | VehicleState.engineNotReady => (s, [])
  else (s, [])

/-- updateKers of src/unnamed/part_004: derive kersReasonOff from the
battery temperature state (returning early on unknown), then apply. -/
def updateKers (s : KERSState) (now : Nat) : KERSState × List (Nat × Bool) :=
  match s.temperatureState with
  | BatteryTemperatureState.unknown => (s, [])
  | BatteryTemperatureState.cold =>
      updateKersApply { s with kersReasonOff := KersReasonOff.offCold } now
  | BatteryTemperatureState.hot =>
      updateKersApply { s with kersReasonOff := KersReasonOff.offHot } now
  | BatteryTemperatureState.ideal =>
      updateKersApply { s with kersReasonOff := KersReasonOff.offNone } now

/-- HandleVehicleStateChange of src/unnamed/part_004: stop the
engine-on timer; on a NotReady→Ready change explicitly set the new
state AND arm the timer for 1500 ms; otherwise just set the state;
finally force an updateKers. -/
def handleVehicleStateChange (s : KERSState) (now : Nat)
    (st : VehicleState) : KERSState × List (Nat × Bool) :=
  let stateChanged := s.vehicleState ≠ st
  let s1 := { s with engineOnTimer := none }
  let s2 :=
    if stateChanged ∧ st = VehicleState.engineReady then
      { s1 with vehicleState := st,
                engineOnTimer := some (now + KersEngineOnDelayMs) }
    else { s1 with vehicleState := st }
  updateKers s2 now

/-- The timerLoop body of src/unnamed/part_004 when the engine-on timer
fires: set vehicleState = EngineReady and run updateKers. -/
def handleEngineOnTimerFire (s : KERSState) (now : Nat) :
    KERSState × List (Nat × Bool) :=
  updateKers { s with vehicleState := VehicleState.engineReady,
                      engineOnTimer := none } now

/-- Events delivered to the KERS supervisor. -/
inductive KERSEvent where
  | vehicleStateChange (st : VehicleState)
  | timerFire
  deriving DecidableEq

/-- Dispatch one timestamped event to the supervisor. -/
def kersStep (s : KERSState) (e : Nat × KERSEvent) :
    KERSState × List (Nat × Bool) :=
  match e.2 with
  | KERSEvent.vehicleStateChange st => handleVehicleStateChange s e.1 st
  | KERSEvent.timerFire => handleEngineOnTimerFire s e.1

/-- Run a timestamped event trace, collecting every
set_kers_enabled call as (time, enable). -/
def runKersTrace (s : KERSState) :
    List (Nat × KERSEvent) → KERSState × List (Nat × Bool)
  | [] => (s, [])
  | e :: rest =>
    let r := kersStep s e
    let r2 := runKersTrace r.1 rest
    (r2.1, r.2 ++ r2.2)

/-- A Status2 frame carrying the decoded fault-code word 15
(bytes 2..6 big-endian). -/
def c1Status2Frame : CanFrame := mkCanFrame 0x7E1 [0, 0, 0, 0, 0, 15]

/-- MaxPowerDeltaSeconds of src/ecu/ecu.go (2.0 s), in nanoseconds.
The constant is declared in the source with the comment "skip if ECU
was off" but never used by UpdatePower. -/
def MaxPowerDeltaNs : Nat := 2000000000

/-- The power state after a first UpdatePower call at t = 0 ns with
voltage 48000 mV and current 5000 mA. -/
def c4FirstUpdate : PowerState := updatePower ⟨none, 0, 0, 0, 0⟩ 0 48000 5000

/-- The speed buffer after sampling 100, 200, 300 from the zero value:
data [100, 200, 300], head 0, count 3, sum 600. -/
def c6Buf : SpeedBuffer :=
  (movingAverage (movingAverage (movingAverage speedBufferReset 100).1 200).1 300).1

/-- The KERS supervisor state before the readiness transition of the
gating scenario: thermal Ideal, stopped, engine not ready, timer off. -/
def kersScenarioInit : KERSState :=
  ⟨BatteryTemperatureState.ideal, KersReasonOff.offNone, true,
   VehicleState.engineNotReady, none⟩

/-- The gating scenario trace: the vehicle turns Ready at t = 0 ms and
the engine-on timer armed by that transition fires at t = 1500 ms. -/
def kersScenarioTrace : List (Nat × KERSEvent) :=
  [(0, KERSEvent.vehicleStateChange VehicleState.engineReady),
   (1500, KERSEvent.timerFire)]

/-- All set_kers_enabled calls made during the gating scenario. -/
def kersScenarioCalls : List (Nat × Bool) :=
  (runKersTrace kersScenarioInit kersScenarioTrace).2

/-- Auxiliary for C5: across any run of fault updates that all still
report a fault, the force-clear deadline is never touched. -/
theorem runFaultUpdates_true_keeps_clear (ts : List Nat) :
    ∀ (d C : Nat),
      (runFaultUpdates ⟨true, some d, some C⟩
        (ts.map (fun t => (t, true)))).clearTimer = some C := by
  induction ts with
  | nil => intro d C; rfl
  | cons t rest ih => intro d C; exact ih (t + FaultUpdateDelay) C

/-- Auxiliary for C9: one UpdatePower call never decreases either
energy counter. -/
theorem updatePower_mono (s : PowerState) (now : Nat) (v c : Int) :
    s.energyConsumed ≤ (updatePower s now v c).energyConsumed ∧
    s.energyRecovered ≤ (updatePower s now v c).energyRecovered := by
  obtain ⟨lp, ec, er, lv, lc⟩ := s
  cases lp with
  | none => exact ⟨le_refl _, le_refl _⟩
  | some last =>
      simp only [updatePower]
      split <;> simp

/-- Auxiliary for C10: a successful table lookup comes from a table
entry. -/
theorem lookupFault_mem (l : List (Nat × ECUFault)) :
    ∀ (code : Nat) (f : ECUFault), lookupFault l code = some f → (code, f) ∈ l := by
  induction l with
  | nil => intro code f h; exact absurd h (by simp [lookupFault])
  | cons p rest ih =>
      intro code f h
      obtain ⟨k, v⟩ := p
      by_cases hc : code = k
      · subst hc
        have h' : v = f := by simpa [lookupFault] using h
        subst h'
        exact List.mem_cons_self _ _
      · simp only [lookupFault, if_neg hc] at h
        exact List.mem_cons_of_mem _ (ih code f h)

/-- Auxiliary for C10: no entry of the Bosch fault table maps to
FaultNone. -/
theorem boschFaultMap_no_fault_none : ∀ p ∈ boschFaultMap, p.2 ≠ FaultNone := by
  decide

/-- C1: the claim says a Status2 frame with fault-code word 15 is
filtered so that GetFaultCode returns 0.  The code of
handleStatus2Frame stores the word unfiltered: after the frame
(ID 0x7E1, length 6, word 15) the stored fault code is 15, so
GetFaultCode returns 15, not 0 — contradicting the repository test
TestBoschStatus2_SpuriousFault15 and the spec.  GetActiveFaults is
nevertheless empty, because 15 has no entry in the Bosch fault map. -/
theorem c1_bosch_fault15_unfiltered :
    c1Status2Frame.id = BoschStatus2FrameID ∧ c1Status2Frame.length = 6 ∧
    getFaultCode (handleStatus2Frame boschInit c1Status2Frame) = 15 ∧
    getFaultCode (handleStatus2Frame boschInit c1Status2Frame) ≠ 0 ∧
    getActiveFaults (handleStatus2Frame boschInit c1Status2Frame) = [] := by
  decide

/-- C2 counterexample: in the gating scenario (thermal Ideal, stopped,
NotReady→Ready at t = 0, timer fires at t = 1500 ms), it is false that
no set_kers_enabled(true) call happens before 1500 ms with exactly one
at or after 1500 ms: HandleVehicleStateChange explicitly sets the
vehicle state to Ready before running updateKers, so a call is made
already at t = 0. -/
theorem c2_kers_gating_counterexample :
    ¬ (((kersScenarioCalls.filter
          (fun c => decide (c.1 < 1500) && c.2)).length = 0) ∧
       ((kersScenarioCalls.filter
          (fun c => decide (1500 ≤ c.1) && c.2)).length = 1)) := by
  decide

/-- C2 amended: in the gating scenario the supervisor issues
set_kers_enabled(true) twice — once immediately at t = 0 on the
NotReady→Ready transition, and once more when the engine-on timer
(armed by that transition for t = 1500 ms) fires. -/
theorem c2_kers_gating_amended :
    kersScenarioCalls = [(0, true), (1500, true)] ∧
    (runKersTrace kersScenarioInit
      [(0, KERSEvent.vehicleStateChange VehicleState.engineReady)]).1.engineOnTimer
        = some KersEngineOnDelayMs := by
  decide

/-- C3 counterexample: the status-request operation does publish
exactly one frame with ID 0x4EF, but its length is 1 (payload byte
0x01), not 0 as the claim states. -/
theorem c3_status_request_length_counterexample :
    (sendStatusRequest none).1 = [boschStatusRequestFrame] ∧
    boschStatusRequestFrame.id = BoschStatusRequestFrameID ∧
    boschStatusRequestFrame.length = 1 ∧
    boschStatusRequestFrame.length ≠ 0 := by
  decide

/-- C3 amended: SendStatusRequest publishes exactly one CAN frame with
ID 0x4EF and length 1 carrying the single byte 0x01
(report_all_ecu_settings = 1), and returns the publish error, if any. -/
theorem c3_status_request_amended (err : Option Nat) :
    sendStatusRequest err = ([boschStatusRequestFrame], err) ∧
    boschStatusRequestFrame = ⟨0x4EF, 1, [0x01, 0, 0, 0, 0, 0, 0, 0]⟩ :=
  ⟨rfl, by decide⟩

/-- C4: the claim says that when the elapsed time since the last power
update exceeds 2.0 s, the timestamp is reset and no energy is
integrated.  The code of UpdatePower has no such guard (the constant
MaxPowerDeltaSeconds is declared but unused): after a first update at
t = 0 ns, a second update 3 s later — beyond the 2 s ceiling — with
voltage 48000 mV and current 5000 mA both resets the timestamp and
integrates 200 mWh into the consumed counter. -/
theorem c4_update_power_no_gap_guard :
    c4FirstUpdate = ⟨some 0, 0, 0, 48000, 5000⟩ ∧
    MaxPowerDeltaNs < 3000000000 - 0 ∧
    (updatePower c4FirstUpdate 3000000000 48000 5000).lastPowerUpdate
      = some 3000000000 ∧
    (updatePower c4FirstUpdate 3000000000 48000 5000).energyConsumed = 200 ∧
    (updatePower c4FirstUpdate 3000000000 48000 5000).energyRecovered = 0 := by
  have hf : c4FirstUpdate = ⟨some 0, 0, 0, 48000, 5000⟩ := by decide
  have ht : Int.tdiv (48000 * 5000) 1000 = 240000 := by decide
  refine ⟨hf, by decide, ?_, ?_, ?_⟩ <;>
    · rw [hf]
      simp only [updatePower, ht]
      norm_num [ratFloorNat]
      try decide

/-- C5: a false→true transition of the fault flag arms the
update-request timer for now+500 ms and the force-clear timer for
now+5000 ms; a true→false transition stops both; a true→true update
re-arms only the update-request timer and leaves the force-clear
deadline intact, so across a whole episode of persisting faults the
force-clear deadline stays 5 s after the first observation. -/
theorem c5_fault_timer_protocol :
    (∀ (u c : Option Nat) (now : Nat),
      handleFaultState ⟨false, u, c⟩ now true =
        ⟨true, some (now + FaultUpdateDelay), some (now + FaultClearTimeout)⟩) ∧
    (∀ (u c : Option Nat) (now : Nat),
      handleFaultState ⟨true, u, c⟩ now false = ⟨false, none, none⟩) ∧
    (∀ (du : Nat) (c : Option Nat) (now : Nat),
      handleFaultState ⟨true, some du, c⟩ now true =
        ⟨true, some (now + FaultUpdateDelay), c⟩) ∧
    (∀ (u c : Option Nat) (t0 : Nat) (ts : List Nat),
      (runFaultUpdates ⟨false, u, c⟩
        ((t0, true) :: ts.map (fun t => (t, true)))).clearTimer
          = some (t0 + FaultClearTimeout)) := by
  refine ⟨fun u c now => rfl, fun u c now => rfl, fun du c now => rfl, ?_⟩
  intro u c t0 ts
  exact runFaultUpdates_true_keeps_clear ts (t0 + FaultUpdateDelay)
    (t0 + FaultClearTimeout)

/-- C6 counterexample: after the samples 100, 200, 300, the claim says
the next non-zero sample x yields the average (x + 200 + 300) / 3; at
x = 65535 the uint16 running sum wraps modulo 2^16 (the new sum is 499,
not 66035), so the returned average differs from (x + 200 + 300) / 3. -/
theorem c6_speed_filter_wrap_counterexample :
    (sampleSpeed c6Buf 65535).2 ≠ ((65535 : ℚ) + 200 + 300) / 3 := by
  have hbuf : c6Buf = ⟨[100, 200, 300], 0, 3, 600⟩ := by decide
  simp only [sampleSpeed, hbuf, movingAverage]
  norm_num

/-- C6 amended: sampling raw = 0 from any buffer state clears the
buffer (data zeroed, sum = count = head = 0) and returns 0; and after
the samples 100, 200, 300, the next non-zero sample x with
x ≤ 65035 — so that the uint16 running sum does not wrap — returns
(x + 200 + 300) / 3, the oldest entry 100 being evicted. -/
theorem c6_speed_filter_amended :
    (∀ buf : SpeedBuffer, sampleSpeed buf 0 = (speedBufferReset, 0)) ∧
    (∀ x : Nat, 0 < x → x ≤ 65035 →
      (sampleSpeed c6Buf x).2 = ((x : ℚ) + 200 + 300) / 3) := by
  constructor
  · intro buf; rfl
  · intro x hx hx2
    have hne : ¬ x = 0 := by omega
    have hbuf : c6Buf = ⟨[100, 200, 300], 0, 3, 600⟩ := by decide
    have hsum : (600 % 65536 + 65536 - 100 % 65536 + x % 65536) % 65536
        = 500 + x := by
      have hxm : x % 65536 = x := Nat.mod_eq_of_lt (by omega)
      omega
    simp only [sampleSpeed, hbuf, if_neg hne, movingAverage]
    norm_num [hsum]
    ring

/-- C6 witness: the amended claim evaluated at a concrete buffer state
for the zero-reset part and at x = 400 for the averaging part, where
the result is (400 + 200 + 300) / 3 = 300. -/
theorem c6_speed_filter_amended_witness :
    sampleSpeed ⟨[7, 8, 9], 1, 3, 24⟩ 0 = (speedBufferReset, 0) ∧
    (0 : Nat) < 400 ∧ (400 : Nat) ≤ 65035 ∧
    (sampleSpeed c6Buf 400).2 = ((400 : ℚ) + 200 + 300) / 3 :=
  ⟨c6_speed_filter_amended.1 _, by decide, by decide,
   c6_speed_filter_amended.2 400 (by decide) (by decide)⟩

/-- C7: for every state of the two battery packs,
GetActiveTemperatureState returns the thermal state of the unique
active pack when exactly one pack is active, and Unknown when both or
neither are active. -/
theorem c7_battery_active_thermal :
    ∀ (t0 t1 : BatteryTemperatureState),
      getActiveTemperatureState ⟨true, t0⟩ ⟨false, t1⟩ = t0 ∧
      getActiveTemperatureState ⟨false, t0⟩ ⟨true, t1⟩ = t1 ∧
      getActiveTemperatureState ⟨true, t0⟩ ⟨true, t1⟩
        = BatteryTemperatureState.unknown ∧
      getActiveTemperatureState ⟨false, t0⟩ ⟨false, t1⟩
        = BatteryTemperatureState.unknown := by
  intro t0 t1
  exact ⟨rfl, rfl, rfl, rfl⟩

/-- C8: SetKersEnabled(true) publishes the EBSSet frame (ID 0x4E2,
4 bytes, 56000 mV and 10000 mA big-endian, i.e. DA C0 27 10) before the
Control frame (ID 0x4E0, one byte gear_bit | boost<<1 | kers<<2 = 0x05);
SetKersEnabled(false) publishes only the Control frame (byte 0x01); any
publish error is returned with kersEnabled unchanged; on success
kersEnabled is set to the argument. -/
theorem c8_set_kers_enabled_spec :
    boschEBSSetFrame = ⟨0x4E2, 4, [0xDA, 0xC0, 0x27, 0x10, 0, 0, 0, 0]⟩ ∧
    boschControlFrame true = ⟨0x4E0, 1, [0x05, 0, 0, 0, 0, 0, 0, 0]⟩ ∧
    boschControlFrame false = ⟨0x4E0, 1, [0x01, 0, 0, 0, 0, 0, 0, 0]⟩ ∧
    (∀ (b : BoschState) (e : Nat) (ce : Option Nat),
      setKersEnabled b true (some e) ce = ([boschEBSSetFrame], some e, b)) ∧
    (∀ (b : BoschState) (e : Nat),
      setKersEnabled b true none (some e) =
        ([boschEBSSetFrame, boschControlFrame true], some e, b)) ∧
    (∀ b : BoschState,
      setKersEnabled b true none none =
        ([boschEBSSetFrame, boschControlFrame true], none,
         { b with kersEnabled := true })) ∧
    (∀ (b : BoschState) (eb : Option Nat) (e : Nat),
      setKersEnabled b false eb (some e) = ([boschControlFrame false], some e, b)) ∧
    (∀ (b : BoschState) (eb : Option Nat),
      setKersEnabled b false eb none =
        ([boschControlFrame false], none, { b with kersEnabled := false })) := by
  refine ⟨by decide, by decide, by decide, ?_, ?_, ?_, ?_, ?_⟩
  · intro b e ce; rfl
  · intro b e; rfl
  · intro b; rfl
  · intro b eb e; cases eb <;> rfl
  · intro b eb; cases eb <;> rfl

/-- C9: across any sequence of power updates, the cumulative energy
counters returned by GetEnergyConsumed and GetEnergyRecovered never
decrease: the counters of any intermediate state are lower bounds for
the counters after any further updates. -/
theorem c9_energy_monotone :
    ∀ (us : List (Nat × Int × Int)) (s : PowerState),
      s.energyConsumed ≤ (runPowerUpdates s us).energyConsumed ∧
      s.energyRecovered ≤ (runPowerUpdates s us).energyRecovered := by
  intro us
  induction us with
  | nil => intro s; exact ⟨le_refl _, le_refl _⟩
  | cons u rest ih =>
      intro s
      have h1 := updatePower_mono s u.1 u.2.1 u.2.2
      have h2 := ih (updatePower s u.1 u.2.1 u.2.2)
      exact ⟨le_trans h1.1 h2.1, le_trans h1.2 h2.2⟩

/-- C10: for every stored fault code, the Bosch active-fault set has
cardinality at most 1, and it is empty exactly when the code is 0 or
has no entry in the Bosch fault map. -/
theorem c10_bosch_single_fault :
    ∀ code : Nat,
      (boschActiveFaults code).length ≤ 1 ∧
      (boschActiveFaults code = [] ↔
        code = 0 ∨ lookupFault boschFaultMap code = none) := by
  intro code
  by_cases h0 : code = 0
  · subst h0; exact ⟨by decide, by decide⟩
  · cases hl : lookupFault boschFaultMap code with
    | none =>
        have hm : mapBoschFault code = FaultNone := by
          unfold mapBoschFault; rw [hl]; rfl
        constructor
        · simp [boschActiveFaults, h0, hm]
        · simp [boschActiveFaults, h0, hm, hl]
    | some f =>
        have hf : f ≠ FaultNone :=
          boschFaultMap_no_fault_none _ (lookupFault_mem _ code f hl)
        have hm : mapBoschFault code = f := by
          unfold mapBoschFault; rw [hl]; rfl
        constructor
        · simp [boschActiveFaults, h0, hm, hf]
        · simp [boschActiveFaults, h0, hm, hf, hl]

end ECUService
